import Mathlib

/-!
# Linear quantize / dequantize kernels (`paddle/fluid/operators/quantize_linear_op.h`)

A shallow embedding of `QuantizeLinearKernel::Compute`,
`DeQuantizeLinearKernel::ComputeImpl` and `DeQuantizeLinearKernel::Compute`.

Conventions of the embedding:

* tensor elements are rationals: element arithmetic of the kernels is the exact
  arithmetic of the formulas, and only the conversions between numeric formats
  that the header writes down (`float max_range`, `static_cast<D>`, `phi::Cast`)
  round the significand;
* a tensor is its element type, its shape and its row-major list of elements;
* an output that a call never touches is `none`, an output it writes is `some`;
* a `PADDLE_ENFORCE` / `PADDLE_THROW` failure is an `Except.error`.

The functors the header calls (`FindAbsMaxFunctor`, `ClipAndFakeQuantFunctor`,
...) live in other files of the repository; they are modelled from the written
specification and marked as such.
-/

namespace paddle
namespace operators

/-! ## Data model -/

/-- Element types of a tensor (`phi::DataType`). -/
inductive DataType where
  | UNDEFINED | BOOL | UINT8 | INT8 | INT16 | INT32 | INT64
  | BFLOAT16 | FLOAT16 | FLOAT32 | FLOAT64 | COMPLEX64 | COMPLEX128
  deriving DecidableEq, Repr

/-- A dense row-major tensor (`phi::DenseTensor`): element type, shape, elements. -/
structure DenseTensor where
  dtype : DataType
  dims : List Nat
  data : List ℚ
  deriving DecidableEq

/-- Number of elements announced by the shape (`DenseTensor::numel`). -/
def DenseTensor.numel (t : DenseTensor) : Nat := t.dims.prod

/-- First element of a buffer (`t.data<T>()[0]`); an empty buffer reads as 0. -/
def DenseTensor.first (t : DenseTensor) : ℚ := t.data.headD 0

/-- The three instantiations of the template parameter `D` of
`DeQuantizeLinearKernel::ComputeImpl`. -/
inductive FloatType where
  | float16 | float | double
  deriving DecidableEq, Repr

/-- The tensor element type of a C++ floating type (`phi::CppTypeToDataType<D>::Type()`). -/
def FloatType.toDataType : FloatType → DataType
  | .float16 => .FLOAT16
  | .float => .FLOAT32
  | .double => .FLOAT64

/-- Significand width in bits (hidden bit included) of a floating type. -/
def FloatType.precision : FloatType → Nat
  | .float16 => 11
  | .float => 24
  | .double => 53

/-- Errors raised by the kernels (`platform::errors`). `PreconditionNotMet`
carries the two numbers the message prints. -/
inductive Error where
  | PreconditionNotMet (scaleNumel : Nat) (axisDim : Nat)
  | Unimplemented (dtype : DataType)
  deriving DecidableEq, Repr

/-! ## Numeric conversions written in the header -/

/-- Round to the nearest integer, ties to the even one. -/
def roundHalfEven (v : ℚ) : Int :=
  let f := ⌊v⌋
  let r := v - f
  if r < 1 / 2 then f
  else if 1 / 2 < r then f + 1
  else if f % 2 = 0 then f else f + 1

/-- Round to the nearest integer, ties away from zero (`std::round`). -/
def roundHalfAway (v : ℚ) : Int :=
  if 0 ≤ v then ⌊v + 1 / 2⌋ else ⌈v - 1 / 2⌉

/-- Round a value to a binary significand of `p` bits, nearest-even. The
exponent range is not bounded: overflow to infinity and subnormals are outside
the model. -/
def roundToPrecision (p : Nat) (q : ℚ) : ℚ :=
  if q = 0 then 0
  else
    let ulp : ℚ := (2 : ℚ) ^ (Int.log 2 |q| - ((p : Int) - 1))
    (roundHalfEven (q / ulp) : ℚ) * ulp

/-- Conversion of a value to the floating type `D` (`static_cast<D>`). -/
def FloatType.cast (D : FloatType) (q : ℚ) : ℚ := roundToPrecision D.precision q

/-- `std::pow(2, e)` for an `int` exponent: a power of two, exact in `double`. -/
def pow2 (e : Int) : ℚ := (2 : ℚ) ^ e

/-- The `double` value of `std::pow(2, e) - 1`. For `e ≤ -54` the exact
difference is closer to `-1` than to any other `double` and the subtraction
returns `-1.0`; for `-53 ≤ e ≤ 53` the subtraction is exact; above 53 the
difference rounds to `2^e`, which every conversion applied to it below (to `int`,
to `float`) maps to the same result as the exact value. -/
def doubleSubOne (e : Int) : ℚ := if e ≤ -54 then -1 else pow2 e - 1

/-- Conversion of a `double` to `int`: truncation toward zero. A value outside
the `int` range is undefined behaviour in C++; the model returns `INT_MIN`, the
value the x86 conversion instruction produces. -/
def doubleToInt (q : ℚ) : Int :=
  let t : Int := if 0 ≤ q then ⌊q⌋ else ⌈q⌉
  if -2147483648 ≤ t ∧ t ≤ 2147483647 then t else -2147483648

/-- The `int bin_cnt = std::pow(2, bit_length - 1) - 1;` of
`QuantizeLinearKernel::Compute` (line 61): the `double` difference converted to
`int`. -/
def bin_cnt (bit_length : Int) : Int := doubleToInt (doubleSubOne (bit_length - 1))

/-! ## Functors called by the kernels -/

/-- Clamp `x` into `[lo, hi]`. -/
def clip (x lo hi : ℚ) : ℚ := min (max x lo) hi

/-- The rounding policy selected by the `round_type` attribute: 0 is
round-half-to-even, any other value is round-half-away-from-zero. -/
def roundWith (round_type : Int) (v : ℚ) : Int :=
  if round_type = 0 then roundHalfEven v else roundHalfAway v

/-- Largest absolute value of a list of elements, 0 for the empty list. -/
def absMax (xs : List ℚ) : ℚ := (xs.map fun x => |x|).foldr max 0

/-- Modelled from the spec: `FindAbsMaxFunctor` (declared in
`fake_quantize_op.h`, not in this header), section 4.1: the maximum of the
absolute values of the `num` elements starting at `in_data`. -/
def FindAbsMaxFunctor (in_data : List ℚ) (num : Nat) : ℚ := absMax (in_data.take num)

/-- Coordinate along `axis` of the element with row-major index `i` in a tensor
of shape `dims`. -/
def channelOf (dims : List Nat) (axis : Nat) (i : Nat) : Nat :=
  (i / (dims.drop (axis + 1)).prod) % dims.getD axis 0

/-- Elements of a tensor whose coordinate along `axis` is `c`, in storage order. -/
def channelElems (t : DenseTensor) (axis : Nat) (c : Nat) : List ℚ :=
  (t.data.enum.filter fun p => channelOf t.dims axis p.1 = c).map Prod.snd

/-- Modelled from the spec: `FindChannelAbsMaxFunctor` (declared in
`fake_quantize_op.h`), section 4.1: one entry per position along `quant_axis`,
the maximum absolute value among the elements whose coordinate along
`quant_axis` is that position. -/
def FindChannelAbsMaxFunctor (in_tensor : DenseTensor) (quant_axis : Nat) : List ℚ :=
  (List.range (in_tensor.dims.getD quant_axis 0)).map fun c =>
    absMax (channelElems in_tensor quant_axis c)

/-- A one-element tensor of element type `T` holding `v`. -/
def scalarTensor (T : DataType) (v : ℚ) : DenseTensor := ⟨T, [1], [v]⟩

/-- The three tensors written by the moving-average scale tracker. -/
structure MovingAverageOut where
  out_state : DenseTensor
  out_accum : DenseTensor
  out_scale : DenseTensor
  deriving DecidableEq

/-- Modelled from the spec: `FindMovingAverageAbsMaxFunctor<DeviceContext, T>`
(declared in `fake_quantize_op.h`), section 4.2:
`state' = state * moving_rate + 1`, `accum' = accum * moving_rate + cur`,
`out_scale = accum' / state'`, written to three one-element tensors of type `T`. -/
def FindMovingAverageAbsMaxFunctor (T : DataType) (in_accum in_state : DenseTensor)
    (cur_scale : ℚ) (rate : ℚ) : MovingAverageOut :=
  let state := in_state.first * rate + 1
  let accum := in_accum.first * rate + cur_scale
  { out_state := scalarTensor T state
    out_accum := scalarTensor T accum
    out_scale := scalarTensor T (accum / state) }

/-- Modelled from the spec: the per-element Quantize Transform of section 4.3,
`s = max(scale, epsilon)`, `v = clip(x, -s, s) / s * bin_cnt`,
`q = round(v, round_type)`, `out = q * s / bin_cnt`. The floor `epsilon` is not
given a value by the spec and is a parameter. -/
def quantizeElem (eps : ℚ) (scale : ℚ) (bin_cnt : Int) (round_type : Int) (x : ℚ) : ℚ :=
  let s := max scale eps
  let v := clip x (-s) s / s * bin_cnt
  let q := roundWith round_type v
  q * s / bin_cnt

/-- Modelled from the spec: `ClipAndFakeQuantFunctor` (declared in
`fake_quantize_op.h`), the per-tensor Quantize Transform of section 4.3 with the
single scalar of `scale`. -/
def ClipAndFakeQuantFunctor (eps : ℚ) (in_ : DenseTensor) (scale : DenseTensor)
    (bin_cnt : Int) (round_type : Int) : DenseTensor :=
  { in_ with data := in_.data.map (quantizeElem eps scale.first bin_cnt round_type) }

/-- Modelled from the spec: `ChannelClipAndFakeQuantFunctor` (declared in
`fake_quantize_op.h`), the per-channel Quantize Transform of section 4.3: each
element uses the entry of `scale` at its coordinate along `quant_axis`. An entry
past the end of `scale` reads as 0. -/
def ChannelClipAndFakeQuantFunctor (eps : ℚ) (in_ : DenseTensor) (scale : DenseTensor)
    (bin_cnt : Int) (round_type : Int) (quant_axis : Nat) : DenseTensor :=
  { in_ with
    data := in_.data.enum.map fun p =>
      quantizeElem eps (scale.data.getD (channelOf in_.dims quant_axis p.1) 0)
        bin_cnt round_type p.2 }

/-- Modelled from the spec: `framework::TensorCopy` (declared in
`tensor_util.h`): the destination becomes a copy of the source, unchanged. -/
def TensorCopy (src : DenseTensor) : DenseTensor := src

/-- Modelled from the spec: `phi::Cast` (declared in `cast_kernel.h`), section
4.6: a numeric cast of every element to the precision `D`. -/
def Cast (x : DenseTensor) (D : FloatType) : DenseTensor :=
  { dtype := D.toDataType, dims := x.dims, data := x.data.map D.cast }

/-- Modelled from the spec: the CPU/GPU specialisations of `DequantizeFunctor`
(only declared in this header, lines 30-37), section 4.4 per-tensor:
`out = in * scale / max_range`. -/
def DequantizeFunctor (in_ : DenseTensor) (scale : DenseTensor) (max_range : ℚ) :
    DenseTensor :=
  { in_ with data := in_.data.map fun x => x * scale.first / max_range }

/-- Modelled from the spec: the specialisations of `ChannelDequantizeFunctorV2`
(only declared in this header, lines 39-48), section 4.4 per-channel:
`out = in * scale[channel(i)] / max_range`. An entry past the end of `scale`
reads as 0. -/
def ChannelDequantizeFunctorV2 (in_ : DenseTensor) (scale : DenseTensor) (max_range : ℚ)
    (quant_axis : Nat) : DenseTensor :=
  { in_ with
    data := in_.data.enum.map fun p =>
      p.2 * scale.data.getD (channelOf in_.dims quant_axis p.1) 0 / max_range }

/-! ## `QuantizeLinearKernel` -/

/-- Inputs and attributes read from the `ExecutionContext` by
`QuantizeLinearKernel::Compute`. `InAccum` and `InState` are only read in the
training per-tensor branch. -/
structure QuantizeLinearContext where
  X : DenseTensor
  Scale : DenseTensor
  InAccum : DenseTensor
  InState : DenseTensor
  bit_length : Int
  round_type : Int
  quant_axis : Int
  is_test : Bool
  only_observer : Bool
  moving_rate : ℚ

/-- Outputs of `QuantizeLinearKernel::Compute`; `none` is an output the call
leaves untouched. -/
structure QuantizeLinearOutputs where
  Y : DenseTensor
  OutScale : Option DenseTensor
  OutAccum : Option DenseTensor
  OutState : Option DenseTensor
  deriving DecidableEq

/-- The body of `QuantizeLinearKernel::Compute` (lines 53-130). -/
def QuantizeLinearKernel.Compute (eps : ℚ) (context : QuantizeLinearContext) :
    QuantizeLinearOutputs :=
  let in_ := context.X
  let in_scale := context.Scale
  let bit_length := context.bit_length
  let round_type := context.round_type
  let bin_cnt := bin_cnt bit_length
  let quant_axis := context.quant_axis
  let is_test := context.is_test
  let only_observer := context.only_observer
  if quant_axis < 0 then
    if !is_test then
      -- training
      let in_accum := context.InAccum
      let in_state := context.InState
      let cur_scale_data := FindAbsMaxFunctor in_.data in_.numel
      let moving_rate := context.moving_rate
      let r :=
        FindMovingAverageAbsMaxFunctor in_.dtype in_accum in_state cur_scale_data moving_rate
      if only_observer then
        { Y := TensorCopy in_
          OutScale := some r.out_scale, OutAccum := some r.out_accum
          OutState := some r.out_state }
      else
        { Y := ClipAndFakeQuantFunctor eps in_ r.out_scale bin_cnt round_type
          OutScale := some r.out_scale, OutAccum := some r.out_accum
          OutState := some r.out_state }
    else
      if only_observer then
        { Y := TensorCopy in_, OutScale := none, OutAccum := none, OutState := none }
      else
        { Y := ClipAndFakeQuantFunctor eps in_ in_scale bin_cnt round_type
          OutScale := none, OutAccum := none, OutState := none }
  else
    if !is_test then
      let out_scale : DenseTensor :=
        { dtype := in_.dtype, dims := [in_.dims.getD quant_axis.toNat 0]
          data := FindChannelAbsMaxFunctor in_ quant_axis.toNat }
      if only_observer then
        { Y := TensorCopy in_, OutScale := some out_scale, OutAccum := none
          OutState := none }
      else
        { Y := ChannelClipAndFakeQuantFunctor eps in_ out_scale bin_cnt round_type
            quant_axis.toNat
          OutScale := some out_scale, OutAccum := none, OutState := none }
    else
      if only_observer then
        { Y := TensorCopy in_, OutScale := none, OutAccum := none, OutState := none }
      else
        { Y := ChannelClipAndFakeQuantFunctor eps in_ in_scale bin_cnt round_type
            quant_axis.toNat
          OutScale := none, OutAccum := none, OutState := none }

/-! ## `DeQuantizeLinearKernel` -/

/-- Inputs and attributes read from the `ExecutionContext` by
`DeQuantizeLinearKernel`. -/
structure DeQuantizeLinearContext where
  X : DenseTensor
  Scale : DenseTensor
  bit_length : Int
  quant_axis : Int
  only_observer : Bool

/-- The body of `DeQuantizeLinearKernel::ComputeImpl<D>` (lines 137-178); the
result is the output tensor `Y`, or the error of the failed `PADDLE_ENFORCE_EQ`.
A `quant_axis` past the rank of `X` reads the dimension 0. -/
def DeQuantizeLinearKernel.ComputeImpl (D : FloatType) (context : DeQuantizeLinearContext) :
    Except Error DenseTensor :=
  let in_ := context.X
  let in_tmp := Cast in_ D
  let scale := context.Scale
  let bit_length := context.bit_length
  let quant_axis := context.quant_axis
  let only_observer := context.only_observer
  if only_observer then
    .ok (TensorCopy in_)
  else if quant_axis < 0 then
    let max_range : ℚ := FloatType.float.cast (doubleSubOne (bit_length - 1))
    .ok (DequantizeFunctor in_tmp scale (D.cast max_range))
  else
    if scale.numel ≠ in_tmp.dims.getD quant_axis.toNat 0 then
      .error (.PreconditionNotMet scale.numel (in_tmp.dims.getD quant_axis.toNat 0))
    else
      let max_range : Int := doubleToInt (doubleSubOne (bit_length - 1))
      .ok (ChannelDequantizeFunctorV2 in_tmp scale (D.cast max_range) quant_axis.toNat)

/-- The body of `DeQuantizeLinearKernel::Compute` (lines 180-199): dispatch on
the element type of `Scale`. -/
def DeQuantizeLinearKernel.Compute (context : DeQuantizeLinearContext) :
    Except Error DenseTensor :=
  match context.Scale.dtype with
  | .FLOAT64 => DeQuantizeLinearKernel.ComputeImpl .double context
  | .FLOAT32 => DeQuantizeLinearKernel.ComputeImpl .float context
  | .FLOAT16 => DeQuantizeLinearKernel.ComputeImpl .float16 context
  | d => .error (.Unimplemented d)

/-! ## Divisions of the transforms -/

/-- The `max_range` that the per-tensor branch of `ComputeImpl<D>` hands to
`DequantizeFunctor` (lines 160-162): `float max_range = std::pow(2, bit_length - 1) - 1`
converted by `static_cast<D>`. -/
def perTensorMaxRange (D : FloatType) (bit_length : Int) : ℚ :=
  D.cast (FloatType.float.cast (doubleSubOne (bit_length - 1)))

/-- The `max_range` that the per-channel branch of `ComputeImpl<D>` hands to
`ChannelDequantizeFunctorV2` (lines 173-176): `int max_range = std::pow(2, bit_length - 1) - 1`
converted by `static_cast<D>`. -/
def perChannelMaxRange (D : FloatType) (bit_length : Int) : ℚ :=
  D.cast (doubleToInt (doubleSubOne (bit_length - 1)))

/-! ## Successive training calls -/

/-- The moving-average pair `(accum, state)` that the caller keeps between
training calls. -/
structure Statistics where
  accum : DenseTensor
  state : DenseTensor
  deriving DecidableEq

/-- One training call as the caller makes it: run the kernel on the input `X`
with the stored pair as `InAccum` / `InState`, and store the `OutAccum` /
`OutState` it wrote (the stored pair is kept when the call wrote none). -/
def trainingStep (eps : ℚ) (context : QuantizeLinearContext) (stats : Statistics)
    (X : DenseTensor) : Statistics :=
  let out := QuantizeLinearKernel.Compute eps
    { context with X := X, InAccum := stats.accum, InState := stats.state }
  { accum := out.OutAccum.getD stats.accum, state := out.OutState.getD stats.state }

/-- The stored pair after successive training calls on the inputs `inputs`, each
call feeding the previous call's `OutAccum` / `OutState` back in. -/
def trainingRun (eps : ℚ) (context : QuantizeLinearContext) (init : Statistics)
    (inputs : List DenseTensor) : Statistics :=
  inputs.foldl (trainingStep eps context) init

/-- The outputs of the training call on `X` that follows the calls on `inputs`. -/
def trainingCall (eps : ℚ) (context : QuantizeLinearContext) (init : Statistics)
    (inputs : List DenseTensor) (X : DenseTensor) : QuantizeLinearOutputs :=
  QuantizeLinearKernel.Compute eps
    { context with
      X := X
      InAccum := (trainingRun eps context init inputs).accum
      InState := (trainingRun eps context init inputs).state }

/-! ## Concrete calls used as test inputs -/

/-- A training per-channel observer call on a 2x2 tensor. -/
def observerContext : QuantizeLinearContext :=
  { X := ⟨.FLOAT32, [2, 2], [1, -3, 2, 5 / 2]⟩
    Scale := ⟨.FLOAT32, [1], [1]⟩
    InAccum := ⟨.FLOAT32, [1], [0]⟩
    InState := ⟨.FLOAT32, [1], [0]⟩
    bit_length := 8
    round_type := 0
    quant_axis := 0
    is_test := false
    only_observer := true
    moving_rate := 9 / 10 }

/-- A training per-tensor call: first step of the moving average. -/
def trainingContext : QuantizeLinearContext :=
  { X := ⟨.FLOAT32, [3], [1, -5, 2]⟩
    Scale := ⟨.FLOAT32, [1], [1]⟩
    InAccum := ⟨.FLOAT32, [1], [0]⟩
    InState := ⟨.FLOAT32, [1], [0]⟩
    bit_length := 8
    round_type := 0
    quant_axis := -1
    is_test := false
    only_observer := false
    moving_rate := 9 / 10 }

/-- A per-channel dequantize call on a tensor of shape `[2, 3]` along axis 1 with
a scale of two elements. -/
def mismatchedDequantContext : DeQuantizeLinearContext :=
  { X := ⟨.FLOAT32, [2, 3], [1, 2, 3, 4, 5, 6]⟩
    Scale := ⟨.FLOAT32, [2], [1, 1]⟩
    bit_length := 8
    quant_axis := 1
    only_observer := false }

/-- An observer-only dequantize call whose input is FLOAT64 and whose scale is
FLOAT32; 16777217 = 2^24 + 1 is a `double` but not a `float`. -/
def observerDequantContext : DeQuantizeLinearContext :=
  { X := ⟨.FLOAT64, [1], [16777217]⟩
    Scale := ⟨.FLOAT32, [1], [1]⟩
    bit_length := 8
    quant_axis := -1
    only_observer := true }

/-- An inference per-channel quantize call on a tensor of shape `[4, 3, 5]` along
axis 1 with a scale of four elements. -/
def mismatchedQuantContext : QuantizeLinearContext :=
  { X := ⟨.FLOAT32, [4, 3, 5], List.replicate 60 1⟩
    Scale := ⟨.FLOAT32, [4], [1, 2, 4, 8]⟩
    InAccum := ⟨.FLOAT32, [1], [0]⟩
    InState := ⟨.FLOAT32, [1], [0]⟩
    bit_length := 8
    round_type := 0
    quant_axis := 1
    is_test := true
    only_observer := false
    moving_rate := 9 / 10 }

/-- A training per-channel quantize call on a 2x2 tensor along axis 0. -/
def channelTrainingContext : QuantizeLinearContext :=
  { X := ⟨.FLOAT32, [2, 2], [1, -3, 2, 5 / 2]⟩
    Scale := ⟨.FLOAT32, [2], [7, 7]⟩
    InAccum := ⟨.FLOAT32, [1], [4]⟩
    InState := ⟨.FLOAT32, [1], [2]⟩
    bit_length := 8
    round_type := 1
    quant_axis := 0
    is_test := false
    only_observer := false
    moving_rate := 9 / 10 }

/-- A per-tensor dequantize call at `float` precision with `bit_length = 26`. -/
def wideDequantContext : DeQuantizeLinearContext :=
  { X := ⟨.FLOAT32, [1], [1]⟩
    Scale := ⟨.FLOAT32, [1], [1]⟩
    bit_length := 26
    quant_axis := -1
    only_observer := false }

/-- A per-channel dequantize call on a 2x2 tensor along axis 0 at 8 bits. -/
def channelDequantContext : DeQuantizeLinearContext :=
  { X := ⟨.FLOAT32, [2, 2], [127, -127, 64, 0]⟩
    Scale := ⟨.FLOAT32, [2], [1, 2]⟩
    bit_length := 8
    quant_axis := 0
    only_observer := false }

/-- A training per-tensor quantize call in the middle of a run: the stored pair
is `(4, 2)`. -/
def smoothedTrainingContext : QuantizeLinearContext :=
  { X := ⟨.FLOAT32, [3], [1, -5, 2]⟩
    Scale := ⟨.FLOAT32, [1], [7]⟩
    InAccum := ⟨.FLOAT32, [1], [4]⟩
    InState := ⟨.FLOAT32, [1], [2]⟩
    bit_length := 8
    round_type := 0
    quant_axis := -1
    is_test := false
    only_observer := false
    moving_rate := 9 / 10 }

/-- An inference per-channel quantize call on a 2x2 tensor along axis 0. -/
def channelInferenceContext : QuantizeLinearContext :=
  { X := ⟨.FLOAT32, [2, 2], [1, -3, 2, 5 / 2]⟩
    Scale := ⟨.FLOAT32, [2], [3, 4]⟩
    InAccum := ⟨.FLOAT32, [1], [4]⟩
    InState := ⟨.FLOAT32, [1], [2]⟩
    bit_length := 8
    round_type := 1
    quant_axis := 0
    is_test := true
    only_observer := false
    moving_rate := 9 / 10 }

/-- The stored pair before the first training call: `(0, 0)`. -/
def zeroStatistics : Statistics :=
  { accum := scalarTensor .FLOAT32 0, state := scalarTensor .FLOAT32 0 }

/-- A first training input, of abs-max 5. -/
def firstBatch : DenseTensor := ⟨.FLOAT32, [3], [1, -5, 2]⟩

/-- A second training input, of abs-max 3. -/
def secondBatch : DenseTensor := ⟨.FLOAT32, [2], [3, -2]⟩

/-- An inference quantize call whose `quant_axis` is -7, negative but not the
documented -1. -/
def negativeAxisContext : QuantizeLinearContext :=
  { X := ⟨.FLOAT32, [2, 2], [1, -3, 2, 5 / 2]⟩
    Scale := ⟨.FLOAT32, [1], [2]⟩
    InAccum := ⟨.FLOAT32, [1], [4]⟩
    InState := ⟨.FLOAT32, [1], [2]⟩
    bit_length := 8
    round_type := 0
    quant_axis := -7
    is_test := true
    only_observer := false
    moving_rate := 9 / 10 }

/-- A dequantize call whose `quant_axis` is -7 and whose scale has one element,
not the size of any axis of `X`. -/
def negativeAxisDequantContext : DeQuantizeLinearContext :=
  { X := ⟨.FLOAT32, [2, 2], [127, -127, 64, 0]⟩
    Scale := ⟨.FLOAT32, [1], [2]⟩
    bit_length := 8
    quant_axis := -7
    only_observer := false }

/-! ## Observer-only mode of the quantize kernel -/

/-- C1: with `only_observer = true` the quantize kernel returns the input tensor
itself as `Y`, in each of the four modes: same shape, and every element equal to
the input element (no clipping, scaling or rounding). -/
theorem quantize_only_observer_is_copy (eps : ℚ) (context : QuantizeLinearContext)
    (h : context.only_observer = true) :
    (QuantizeLinearKernel.Compute eps context).Y = context.X ∧
      (QuantizeLinearKernel.Compute eps context).Y.dims = context.X.dims ∧
      ∀ i : Nat, (QuantizeLinearKernel.Compute eps context).Y.data[i]? = context.X.data[i]? := by
  have hY : (QuantizeLinearKernel.Compute eps context).Y = context.X := by
    unfold QuantizeLinearKernel.Compute
    simp only [h, TensorCopy, if_true]
    split_ifs <;> rfl
  refine ⟨hY, ?_, ?_⟩
  · rw [hY]
  · intro i
    rw [hY]

/-- C1 at a concrete training per-channel observer call. -/
theorem quantize_only_observer_is_copy_witness :
    observerContext.only_observer = true ∧
      (QuantizeLinearKernel.Compute (1 / 1000000) observerContext).Y = observerContext.X :=
  ⟨rfl, (quantize_only_observer_is_copy (1 / 1000000) observerContext rfl).1⟩

/-! ## Moving-average statistics of the training per-tensor mode -/

/-- C2: in training per-tensor mode the kernel writes
`OutState = InState * moving_rate + 1`,
`OutAccum = InAccum * moving_rate + absmax(X)` and `OutScale = OutAccum / OutState`,
and the three are the same with `only_observer` set and cleared. -/
theorem quantize_training_per_tensor_statistics (eps : ℚ) (context : QuantizeLinearContext)
    (htrain : context.is_test = false) (haxis : context.quant_axis < 0) :
    let state := context.InState.first * context.moving_rate + 1
    let accum := context.InAccum.first * context.moving_rate
      + FindAbsMaxFunctor context.X.data context.X.numel
    let out := QuantizeLinearKernel.Compute eps context
    let observed := QuantizeLinearKernel.Compute eps { context with only_observer := true }
    let quantized := QuantizeLinearKernel.Compute eps { context with only_observer := false }
    out.OutState = some (scalarTensor context.X.dtype state) ∧
      out.OutAccum = some (scalarTensor context.X.dtype accum) ∧
      out.OutScale = some (scalarTensor context.X.dtype (accum / state)) ∧
      observed.OutState = quantized.OutState ∧
      observed.OutAccum = quantized.OutAccum ∧
      observed.OutScale = quantized.OutScale := by
  unfold QuantizeLinearKernel.Compute
  simp only [htrain, haxis, if_true, Bool.not_false, FindMovingAverageAbsMaxFunctor]
  refine ⟨?_, ?_, ?_, ?_, ?_, ?_⟩ <;> first | rfl | (split_ifs <;> rfl)

/-- C2 at a concrete training per-tensor call. -/
theorem quantize_training_per_tensor_statistics_witness :
    trainingContext.is_test = false ∧ trainingContext.quant_axis < 0 ∧
      (QuantizeLinearKernel.Compute (1 / 1000000) trainingContext).OutState
        = some (scalarTensor trainingContext.X.dtype
            (trainingContext.InState.first * trainingContext.moving_rate + 1)) :=
  ⟨rfl, by decide,
    (quantize_training_per_tensor_statistics (1 / 1000000) trainingContext rfl (by decide)).1⟩

/-! ## Precision dispatch of the dequantize kernel -/

/-- `ComputeImpl` never raises `Unimplemented`. -/
theorem computeImpl_ne_unimplemented (D : FloatType) (context : DeQuantizeLinearContext)
    (d : DataType) :
    DeQuantizeLinearKernel.ComputeImpl D context ≠ .error (.Unimplemented d) := by
  unfold DeQuantizeLinearKernel.ComputeImpl
  simp only
  split_ifs <;> simp

/-- C7: `DeQuantizeLinearKernel::Compute` raises `Unimplemented` (naming the
type) exactly when the element type of `Scale` is none of FLOAT16, FLOAT32,
FLOAT64, whatever the other attributes; for each supported type it runs
`ComputeImpl` at that very precision. -/
theorem dequantize_dispatch_on_scale_dtype (context : DeQuantizeLinearContext) :
    ((∃ d, DeQuantizeLinearKernel.Compute context = .error (.Unimplemented d)) ↔
        (context.Scale.dtype ≠ .FLOAT16 ∧ context.Scale.dtype ≠ .FLOAT32 ∧
          context.Scale.dtype ≠ .FLOAT64)) ∧
      ((context.Scale.dtype ≠ .FLOAT16 ∧ context.Scale.dtype ≠ .FLOAT32 ∧
          context.Scale.dtype ≠ .FLOAT64) →
        DeQuantizeLinearKernel.Compute context = .error (.Unimplemented context.Scale.dtype)) ∧
      (∀ D : FloatType, context.Scale.dtype = D.toDataType →
        DeQuantizeLinearKernel.Compute context = DeQuantizeLinearKernel.ComputeImpl D context) := by
  have hsupp : ∀ D : FloatType, context.Scale.dtype = D.toDataType →
      DeQuantizeLinearKernel.Compute context
        = DeQuantizeLinearKernel.ComputeImpl D context := by
    intro D hD
    unfold DeQuantizeLinearKernel.Compute
    cases D <;> simp only [FloatType.toDataType] at hD <;> rw [hD]
  have hunsupp : (context.Scale.dtype ≠ .FLOAT16 ∧ context.Scale.dtype ≠ .FLOAT32 ∧
      context.Scale.dtype ≠ .FLOAT64) →
      DeQuantizeLinearKernel.Compute context = .error (.Unimplemented context.Scale.dtype) := by
    rintro ⟨h16, h32, h64⟩
    unfold DeQuantizeLinearKernel.Compute
    cases hd : context.Scale.dtype <;> simp_all
  refine ⟨⟨?_, fun h => ⟨_, hunsupp h⟩⟩, hunsupp, hsupp⟩
  rintro ⟨d, hd⟩
  refine ⟨?_, ?_, ?_⟩
  · intro h
    rw [hsupp .float16 h] at hd
    exact computeImpl_ne_unimplemented _ _ _ hd
  · intro h
    rw [hsupp .float h] at hd
    exact computeImpl_ne_unimplemented _ _ _ hd
  · intro h
    rw [hsupp .double h] at hd
    exact computeImpl_ne_unimplemented _ _ _ hd

/-! ## Output frame of the quantize kernel -/

/-- C8 (as stated) fails: a training per-channel call writes `OutScale`, although
it is not a training per-tensor call. -/
theorem quantize_out_trio_only_per_tensor_fails :
    ¬ (∀ (eps : ℚ) (context : QuantizeLinearContext),
        (QuantizeLinearKernel.Compute eps context).OutScale.isSome = true ↔
          (context.is_test = false ∧ context.quant_axis < 0)) := by
  intro h
  have h1 := (h (1 / 1000000) observerContext).1 (by
    simp [QuantizeLinearKernel.Compute, observerContext])
  exact absurd h1.2 (by decide)

/-- C8 (amended): `OutAccum` and `OutState` are written exactly in training
per-tensor mode; `OutScale` is written exactly in training mode, per-tensor or
per-channel; both inference modes write none of the three. -/
theorem quantize_output_frame (eps : ℚ) (context : QuantizeLinearContext) :
    ((QuantizeLinearKernel.Compute eps context).OutAccum.isSome = true ↔
        (context.is_test = false ∧ context.quant_axis < 0)) ∧
      ((QuantizeLinearKernel.Compute eps context).OutState.isSome = true ↔
        (context.is_test = false ∧ context.quant_axis < 0)) ∧
      ((QuantizeLinearKernel.Compute eps context).OutScale.isSome = true ↔
        context.is_test = false) ∧
      (context.is_test = true →
        (QuantizeLinearKernel.Compute eps context).OutScale = none ∧
        (QuantizeLinearKernel.Compute eps context).OutAccum = none ∧
        (QuantizeLinearKernel.Compute eps context).OutState = none) := by
  unfold QuantizeLinearKernel.Compute
  simp only
  cases context.is_test <;> cases context.only_observer <;>
    by_cases hq : context.quant_axis < 0 <;> simp [hq]

/-! ## Bin count -/

/-- The `double` value `2^n - 1` converts to the same `int` when it fits. -/
theorem doubleToInt_pow2_sub_one (n : Nat) (hn : n ≤ 31) :
    doubleToInt (pow2 (n : Int) - 1) = 2 ^ n - 1 := by
  have hcast : pow2 (n : Int) - 1 = (((2 : Int) ^ n - 1 : Int) : ℚ) := by
    simp [pow2]
  have hpos : (1 : Int) ≤ 2 ^ n := one_le_pow₀ (by norm_num)
  have hle : (2 : Int) ^ n ≤ 2 ^ 31 := pow_le_pow_right₀ (by norm_num) hn
  have hnonneg : (0 : ℚ) ≤ (((2 : Int) ^ n - 1 : Int) : ℚ) := by
    exact_mod_cast (by omega : (0 : Int) ≤ 2 ^ n - 1)
  unfold doubleToInt
  rw [hcast]
  simp only [hnonneg, if_true, Int.floor_intCast]
  rw [if_pos]
  norm_num at hle
  constructor <;> omega

/-- From exponent -53 on, the `double` subtraction `std::pow(2, e) - 1` is the
exact difference. -/
theorem doubleSubOne_eq (e : Int) (he : -53 ≤ e) : doubleSubOne e = pow2 e - 1 := by
  unfold doubleSubOne
  rw [if_neg (by omega)]

/-- For `1 ≤ bit_length ≤ 32` the bin count is `2^(bit_length-1) - 1`, stated with
`bit_length = n + 1`. -/
theorem bin_cnt_succ (n : Nat) (hn : n ≤ 31) : bin_cnt ((n : Int) + 1) = 2 ^ n - 1 := by
  unfold bin_cnt
  rw [add_sub_cancel_right, doubleSubOne_eq _ (by omega), doubleToInt_pow2_sub_one n hn]

/-- The bin count of 8 bits. -/
theorem bin_cnt_eight : bin_cnt 8 = 127 := by
  have h := bin_cnt_succ 7 (by norm_num)
  norm_num at h
  exact h

/-- C10: for `1 ≤ bit_length ≤ 32` the `int bin_cnt` of the quantize kernel is
exactly `2^(bit_length-1) - 1` and fits in 32 bits; it is 127 for 8 bits and
32767 for 16 bits. -/
theorem bin_cnt_exact (bit_length : Int) (h1 : 1 ≤ bit_length) (h32 : bit_length ≤ 32) :
    bin_cnt bit_length = 2 ^ (bit_length - 1).toNat - 1 ∧
      0 ≤ bin_cnt bit_length ∧ bin_cnt bit_length ≤ 2147483647 ∧
      bin_cnt 8 = 127 ∧ bin_cnt 16 = 32767 := by
  have gen : ∀ b : Int, 1 ≤ b → b ≤ 32 → bin_cnt b = 2 ^ (b - 1).toNat - 1 := by
    intro b hb1 hb32
    have hn : (b - 1).toNat ≤ 31 := by omega
    have hb : b = (((b - 1).toNat : Nat) : Int) + 1 := by omega
    have h := bin_cnt_succ (b - 1).toNat hn
    rw [← hb] at h
    exact h
  have key := gen bit_length h1 h32
  have hpos : (1 : Int) ≤ 2 ^ (bit_length - 1).toNat := one_le_pow₀ (by norm_num)
  have hle : (2 : Int) ^ (bit_length - 1).toNat ≤ 2 ^ 31 :=
    pow_le_pow_right₀ (by norm_num) (by omega)
  have h31 : (2 : Int) ^ 31 = 2147483648 := by norm_num
  refine ⟨key, ?_, ?_, ?_, ?_⟩
  · rw [key]; omega
  · rw [key]; omega
  · exact bin_cnt_eight
  · have h := bin_cnt_succ 15 (by norm_num)
    norm_num at h
    exact h

/-- C10 at `bit_length = 8`. -/
theorem bin_cnt_exact_witness :
    (1 : Int) ≤ 8 ∧ (8 : Int) ≤ 32 ∧ bin_cnt 8 = 2 ^ ((8 : Int) - 1).toNat - 1 :=
  ⟨by decide, by decide, (bin_cnt_exact 8 (by decide) (by decide)).1⟩

/-! ## Scale-length check of the dequantize kernel -/

/-- C3: for a non-observer per-channel dequantize call on a valid axis,
`ComputeImpl` fails if and only if the number of scale elements differs from the
size of `X` along `quant_axis`; the failure is `PreconditionNotMet` carrying both
numbers and yields no output tensor, and with equal sizes the call returns the
per-channel transform of the cast input. -/
theorem dequantize_scale_length_check (D : FloatType) (context : DeQuantizeLinearContext)
    (hobs : context.only_observer = false) (haxis : 0 ≤ context.quant_axis)
    (hvalid : context.quant_axis.toNat < context.X.dims.length) :
    ((∃ e, DeQuantizeLinearKernel.ComputeImpl D context = .error e) ↔
        context.Scale.numel ≠ context.X.dims[context.quant_axis.toNat]) ∧
      (context.Scale.numel ≠ context.X.dims[context.quant_axis.toNat] →
        DeQuantizeLinearKernel.ComputeImpl D context
            = .error (.PreconditionNotMet context.Scale.numel
                context.X.dims[context.quant_axis.toNat]) ∧
          ∀ y, DeQuantizeLinearKernel.ComputeImpl D context ≠ .ok y) ∧
      (context.Scale.numel = context.X.dims[context.quant_axis.toNat] →
        DeQuantizeLinearKernel.ComputeImpl D context
          = .ok (ChannelDequantizeFunctorV2 (Cast context.X D) context.Scale
              (D.cast (doubleToInt (doubleSubOne (context.bit_length - 1))))
              context.quant_axis.toNat)) := by
  have hdim : (Cast context.X D).dims.getD context.quant_axis.toNat 0
      = context.X.dims[context.quant_axis.toNat] := by
    simp only [Cast]
    exact List.getD_eq_getElem _ _ hvalid
  have hnot : ¬ context.quant_axis < 0 := not_lt.mpr haxis
  have hbad : context.Scale.numel ≠ context.X.dims[context.quant_axis.toNat] →
      DeQuantizeLinearKernel.ComputeImpl D context
        = .error (.PreconditionNotMet context.Scale.numel
            context.X.dims[context.quant_axis.toNat]) := by
    intro hne
    unfold DeQuantizeLinearKernel.ComputeImpl
    simp only [hobs, hnot, hdim, if_false, Bool.false_eq_true]
    rw [if_pos hne]
  have hgood : context.Scale.numel = context.X.dims[context.quant_axis.toNat] →
      DeQuantizeLinearKernel.ComputeImpl D context
        = .ok (ChannelDequantizeFunctorV2 (Cast context.X D) context.Scale
            (D.cast (doubleToInt (doubleSubOne (context.bit_length - 1))))
            context.quant_axis.toNat) := by
    intro heq
    unfold DeQuantizeLinearKernel.ComputeImpl
    simp only [hobs, hnot, hdim, if_false, Bool.false_eq_true]
    rw [if_neg (not_not.mpr heq)]
  refine ⟨⟨?_, fun hne => ⟨_, hbad hne⟩⟩, fun hne => ⟨hbad hne, ?_⟩, hgood⟩
  · rintro ⟨e, he⟩ heq
    rw [hgood heq] at he
    cases he
  · intro y hy
    rw [hbad hne] at hy
    cases hy

/-- C3 at a concrete call: two scale values against an axis of size three. -/
theorem dequantize_scale_length_check_witness :
    mismatchedDequantContext.only_observer = false ∧
      0 ≤ mismatchedDequantContext.quant_axis ∧
      mismatchedDequantContext.quant_axis.toNat < mismatchedDequantContext.X.dims.length ∧
      DeQuantizeLinearKernel.ComputeImpl .float mismatchedDequantContext
        = .error (.PreconditionNotMet 2 3) :=
  ⟨rfl, by decide, by decide,
    ((dequantize_scale_length_check .float mismatchedDequantContext rfl (by decide)
      (by decide)).2.1 (by decide)).1⟩

/-! ## Observer-only mode of the dequantize kernel -/

/-- C6, the code at the failing input: the observer-only call returns the input
as it is, FLOAT64 and 16777217, while the cast to the scale precision would be
FLOAT32 and 16777216. -/
theorem dequantize_only_observer_returns_uncast_input :
    DeQuantizeLinearKernel.Compute observerDequantContext
        = .ok ⟨.FLOAT64, [1], [16777217]⟩ ∧
      Cast observerDequantContext.X .float = ⟨.FLOAT32, [1], [16777216]⟩ := by
  have hlog : Int.log 2 |(16777217 : ℚ)| = 24 := by
    rw [show |(16777217 : ℚ)| = ((16777217 : ℕ) : ℚ) by norm_num, Int.log_natCast,
      @Nat.log_eq_of_pow_le_of_lt_pow 2 24 16777217 (by norm_num) (by norm_num)]
    rfl
  constructor
  · rfl
  · simp only [Cast, observerDequantContext, FloatType.toDataType, FloatType.cast,
      FloatType.precision, List.map, roundToPrecision]
    rw [hlog]
    norm_num [roundHalfEven]

/-! ## Scale length in the per-channel quantize path -/

/-- C4, the code at the failing input: with four scale values against an axis of
size three the quantize kernel raises nothing; it returns a full output of 60
elements, the same one as for the first three scale values alone. -/
theorem quantize_per_channel_accepts_mismatched_scale :
    mismatchedQuantContext.Scale.numel = 4 ∧
      mismatchedQuantContext.X.dims.getD mismatchedQuantContext.quant_axis.toNat 0 = 3 ∧
      (QuantizeLinearKernel.Compute (1 / 1000000) mismatchedQuantContext).Y.dims = [4, 3, 5] ∧
      (QuantizeLinearKernel.Compute (1 / 1000000) mismatchedQuantContext).Y.data.length = 60 ∧
      QuantizeLinearKernel.Compute (1 / 1000000) mismatchedQuantContext
        = QuantizeLinearKernel.Compute (1 / 1000000)
            { mismatchedQuantContext with Scale := ⟨.FLOAT32, [3], [1, 2, 4]⟩ } := by
  refine ⟨rfl, rfl, rfl, ?_, ?_⟩
  · simp [QuantizeLinearKernel.Compute, mismatchedQuantContext,
      ChannelClipAndFakeQuantFunctor]
  · rfl

/-! ## Rounding lemmas -/

/-- Rounding half-to-even moves a value by at most one half. -/
theorem abs_roundHalfEven_sub_le (v : ℚ) : |(roundHalfEven v : ℚ) - v| ≤ 1 / 2 := by
  have h0 : (⌊v⌋ : ℚ) ≤ v := Int.floor_le v
  have h1 : v < (⌊v⌋ : ℚ) + 1 := Int.lt_floor_add_one v
  unfold roundHalfEven
  simp only
  rw [abs_le]
  split_ifs with ha hb hc
  · constructor <;> linarith
  · push_cast; constructor <;> linarith
  · constructor <;> linarith
  · push_cast; constructor <;> linarith

/-- Rounding half-away-from-zero moves a value by at most one half. -/
theorem abs_roundHalfAway_sub_le (v : ℚ) : |(roundHalfAway v : ℚ) - v| ≤ 1 / 2 := by
  unfold roundHalfAway
  rw [abs_le]
  split_ifs with h
  · have h0 : (⌊v + 1 / 2⌋ : ℚ) ≤ v + 1 / 2 := Int.floor_le _
    have h1 : v + 1 / 2 < (⌊v + 1 / 2⌋ : ℚ) + 1 := Int.lt_floor_add_one _
    constructor <;> linarith
  · have h0 : v - 1 / 2 ≤ (⌈v - 1 / 2⌉ : ℚ) := Int.le_ceil _
    have h1 : (⌈v - 1 / 2⌉ : ℚ) < v - 1 / 2 + 1 := Int.ceil_lt_add_one _
    constructor <;> linarith

/-- Either rounding policy moves a value by at most one half. -/
theorem abs_roundWith_sub_le (round_type : Int) (v : ℚ) :
    |(roundWith round_type v : ℚ) - v| ≤ 1 / 2 := by
  unfold roundWith
  split_ifs
  · exact abs_roundHalfEven_sub_le v
  · exact abs_roundHalfAway_sub_le v

/-- An integer rounds to itself. -/
theorem roundHalfEven_intCast (z : Int) : roundHalfEven (z : ℚ) = z := by
  unfold roundHalfEven
  simp

/-- A natural number below `2^p` has a significand of at most `p` bits: rounding
to `p` bits leaves it unchanged. -/
theorem roundToPrecision_natCast (p n : Nat) (h : n < 2 ^ p) :
    roundToPrecision p (n : ℚ) = n := by
  unfold roundToPrecision
  by_cases hn : (n : ℚ) = 0
  · simp [hn]
  · have hn0 : n ≠ 0 := by
      intro h0
      exact hn (by simp [h0])
    have hlog : Nat.log 2 n < p := Nat.log_lt_of_lt_pow hn0 h
    obtain ⟨k, hk⟩ : ∃ k : Nat, p = Nat.log 2 n + k + 1 := ⟨p - Nat.log 2 n - 1, by omega⟩
    have hexp : Int.log 2 |(n : ℚ)| - ((p : Int) - 1) = -(k : Int) := by
      rw [abs_of_nonneg (Nat.cast_nonneg n), Int.log_natCast, hk]
      push_cast
      ring
    simp only [hn, if_false, hexp]
    have hulp : (2 : ℚ) ^ (-(k : Int)) = ((2 : ℚ) ^ k)⁻¹ := by
      rw [zpow_neg, zpow_natCast]
    have hpos : (0 : ℚ) < 2 ^ k := by positivity
    have hdiv : (n : ℚ) / ((2 : ℚ) ^ k)⁻¹ = (((n * 2 ^ k : Nat) : Int) : ℚ) := by
      rw [div_inv_eq_mul]
      push_cast
      ring
    rw [hulp, hdiv, roundHalfEven_intCast]
    push_cast
    field_simp

/-! ## The quantize element and the clipped input -/

/-- The element of section 4.3 lies within half a step, hence within one step
`s / bin_cnt`, of the clipped input as soon as the scale is not below the floor. -/
theorem abs_quantizeElem_sub_clip_le (eps s x : ℚ) (b round_type : Int)
    (hs : 0 < s) (heps : eps ≤ s) (hb : 1 ≤ b) :
    |quantizeElem eps s b round_type x - clip x (-s) s| ≤ s / b := by
  have hb0 : (0 : ℚ) < (b : ℚ) := by exact_mod_cast (by omega : (0 : Int) < b)
  have hmax : max s eps = s := max_eq_left heps
  unfold quantizeElem
  simp only [hmax]
  have hr := abs_roundWith_sub_le round_type (clip x (-s) s / s * b)
  have hsplit : (roundWith round_type (clip x (-s) s / s * b) : ℚ) * s / b - clip x (-s) s
      = ((roundWith round_type (clip x (-s) s / s * b) : ℚ) - clip x (-s) s / s * b)
          * (s / b) := by
    field_simp
    ring
  rw [hsplit, abs_mul, abs_of_pos (div_pos hs hb0)]
  calc |(roundWith round_type (clip x (-s) s / s * b) : ℚ) - clip x (-s) s / s * b| * (s / b)
      ≤ 1 / 2 * (s / b) := mul_le_mul_of_nonneg_right hr (le_of_lt (div_pos hs hb0))
    _ ≤ s / b := by
      have := div_pos hs hb0
      linarith

/-! ## Training per-channel mode -/

/-- The abs-max of a list bounds the absolute value of each of its elements. -/
theorem abs_le_absMax (xs : List ℚ) (x : ℚ) (hx : x ∈ xs) : |x| ≤ absMax xs := by
  induction xs with
  | nil => cases hx
  | cons a t ih =>
    simp only [absMax, List.map_cons, List.foldr_cons]
    rcases List.mem_cons.mp hx with h | h
    · rw [h]; exact le_max_left _ _
    · exact le_trans (ih h) (le_max_right _ _)

/-- The abs-max of a non-empty list is the absolute value of one of its elements. -/
theorem absMax_attained (xs : List ℚ) (hne : xs ≠ []) : ∃ x ∈ xs, |x| = absMax xs := by
  induction xs with
  | nil => exact absurd rfl hne
  | cons a t ih =>
    by_cases ht : t = []
    · refine ⟨a, List.mem_cons_self _ _, ?_⟩
      subst ht
      simp [absMax]
    · obtain ⟨y, hy, hyv⟩ := ih ht
      rcases le_total (absMax t) |a| with hle | hle
      · refine ⟨a, List.mem_cons_self _ _, ?_⟩
        show |a| = max |a| (absMax t)
        rw [max_eq_left hle]
      · refine ⟨y, List.mem_cons_of_mem _ hy, ?_⟩
        show |y| = max |a| (absMax t)
        rw [max_eq_right hle, hyv]

/-- The elements of channel `c` are the elements stored at the indices whose
coordinate along the axis is `c`. -/
theorem mem_channelElems (t : DenseTensor) (axis c : Nat) (x : ℚ) :
    x ∈ channelElems t axis c ↔
      ∃ i, ∃ hi : i < t.data.length, channelOf t.dims axis i = c ∧ t.data[i] = x := by
  unfold channelElems
  constructor
  · intro h
    obtain ⟨p, hp, hpx⟩ := List.mem_map.mp h
    obtain ⟨hmem, hc⟩ := List.mem_filter.mp hp
    obtain ⟨i, y⟩ := p
    obtain ⟨hi, hy⟩ := List.mem_enum hmem
    refine ⟨i, hi, ?_, ?_⟩
    · simpa using hc
    · rw [← hy]; exact hpx
  · rintro ⟨i, hi, hc, hx⟩
    refine List.mem_map.mpr ⟨(i, x), List.mem_filter.mpr ⟨?_, ?_⟩, rfl⟩
    · rw [List.mk_mem_enum_iff_getElem?, List.getElem?_eq_getElem hi, hx]
    · simpa using hc

/-- Entry `c` of the channel abs-max vector is the maximum of `|X[i]|` over the
elements of channel `c` (and 0 when the channel has no element). -/
theorem findChannelAbsMax_entry (t : DenseTensor) (axis c : Nat)
    (hc : c < t.dims.getD axis 0) :
    ∃ m : ℚ, (FindChannelAbsMaxFunctor t axis)[c]? = some m ∧
      (∀ i, ∀ hi : i < t.data.length, channelOf t.dims axis i = c → |t.data[i]| ≤ m) ∧
      ((∃ i, ∃ hi : i < t.data.length, channelOf t.dims axis i = c ∧ |t.data[i]| = m) ∨
        ((∀ i, i < t.data.length → channelOf t.dims axis i ≠ c) ∧ m = 0)) := by
  refine ⟨absMax (channelElems t axis c), ?_, ?_, ?_⟩
  · unfold FindChannelAbsMaxFunctor
    rw [List.getElem?_map, List.getElem?_range hc]
    rfl
  · intro i hi hch
    exact abs_le_absMax _ _ ((mem_channelElems t axis c _).mpr ⟨i, hi, hch, rfl⟩)
  · by_cases hne : channelElems t axis c = []
    · right
      refine ⟨?_, by rw [hne]; rfl⟩
      intro i hi hch
      have hmem : t.data[i] ∈ channelElems t axis c :=
        (mem_channelElems t axis c _).mpr ⟨i, hi, hch, rfl⟩
      rw [hne] at hmem
      cases hmem
    · left
      obtain ⟨x, hx, hxv⟩ := absMax_attained _ hne
      obtain ⟨i, hi, hch, hxi⟩ := (mem_channelElems t axis c x).mp hx
      exact ⟨i, hi, hch, by rw [hxi, hxv]⟩

/-- C9: in training per-channel mode, with `only_observer` set or cleared, the
kernel writes as `OutScale` the vector whose entry `c` is the maximum of `|X[i]|`
over the elements whose coordinate along `quant_axis` is `c`; with
`only_observer = false`, `Y` is the per-channel Quantize Transform of `X` with
that very vector; and no output depends on `InAccum`, `InState`, `moving_rate`
or the input `Scale`. -/
theorem quantize_training_per_channel (eps : ℚ) (context : QuantizeLinearContext)
    (htrain : context.is_test = false) (haxis : 0 ≤ context.quant_axis) :
    ∃ scale : DenseTensor,
      (QuantizeLinearKernel.Compute eps context).OutScale = some scale ∧
      scale.data.length = context.X.dims.getD context.quant_axis.toNat 0 ∧
      (∀ c, c < context.X.dims.getD context.quant_axis.toNat 0 →
        ∃ m : ℚ, scale.data[c]? = some m ∧
          (∀ i, ∀ hi : i < context.X.data.length,
            channelOf context.X.dims context.quant_axis.toNat i = c →
              |context.X.data[i]| ≤ m) ∧
          ((∃ i, ∃ hi : i < context.X.data.length,
              channelOf context.X.dims context.quant_axis.toNat i = c ∧
                |context.X.data[i]| = m) ∨
            ((∀ i, i < context.X.data.length →
                channelOf context.X.dims context.quant_axis.toNat i ≠ c) ∧ m = 0))) ∧
      (context.only_observer = false →
        (QuantizeLinearKernel.Compute eps context).Y
          = ChannelClipAndFakeQuantFunctor eps context.X scale (bin_cnt context.bit_length)
              context.round_type context.quant_axis.toNat) ∧
      (∀ (accum state scaleIn : DenseTensor) (rate : ℚ),
        QuantizeLinearKernel.Compute eps
            { context with InAccum := accum, InState := state, Scale := scaleIn
                           moving_rate := rate }
          = QuantizeLinearKernel.Compute eps context) := by
  have hnot : ¬ context.quant_axis < 0 := not_lt.mpr haxis
  refine ⟨{ dtype := context.X.dtype
            dims := [context.X.dims.getD context.quant_axis.toNat 0]
            data := FindChannelAbsMaxFunctor context.X context.quant_axis.toNat },
    ?_, ?_, ?_, ?_, ?_⟩
  · unfold QuantizeLinearKernel.Compute
    simp only [htrain, hnot, if_false, Bool.not_false, if_true]
    split_ifs <;> rfl
  · simp [FindChannelAbsMaxFunctor]
  · intro c hc
    exact findChannelAbsMax_entry context.X context.quant_axis.toNat c hc
  · intro hobs
    unfold QuantizeLinearKernel.Compute
    simp only [htrain, hnot, hobs, if_false, Bool.not_false, if_true, Bool.false_eq_true]
  · intro accum state scaleIn rate
    unfold QuantizeLinearKernel.Compute
    simp only [htrain, hnot, if_false, Bool.not_false, if_true]

/-- C9 at a concrete training per-channel call: the written scale has one entry
per row of the 2x2 input. -/
theorem quantize_training_per_channel_witness :
    channelTrainingContext.is_test = false ∧ 0 ≤ channelTrainingContext.quant_axis ∧
      ∃ scale : DenseTensor,
        (QuantizeLinearKernel.Compute (1 / 1000000) channelTrainingContext).OutScale
          = some scale ∧ scale.data.length = 2 := by
  obtain ⟨scale, h1, h2, _⟩ :=
    quantize_training_per_channel (1 / 1000000) channelTrainingContext rfl (by decide)
  exact ⟨rfl, by decide, scale, h1, h2⟩

/-! ## Divisors of the two transforms -/

/-- The per-tensor branch of `ComputeImpl<D>`: the per-tensor transform of the
cast input with `perTensorMaxRange`. -/
theorem computeImpl_per_tensor (D : FloatType) (context : DeQuantizeLinearContext)
    (hobs : context.only_observer = false) (haxis : context.quant_axis < 0) :
    DeQuantizeLinearKernel.ComputeImpl D context
      = .ok (DequantizeFunctor (Cast context.X D) context.Scale
          (perTensorMaxRange D context.bit_length)) := by
  unfold DeQuantizeLinearKernel.ComputeImpl perTensorMaxRange
  simp only [hobs, haxis, if_true, if_false, Bool.false_eq_true]

/-- The per-channel branch of `ComputeImpl<D>` when the scale length matches: the
per-channel transform of the cast input with `perChannelMaxRange`. -/
theorem computeImpl_per_channel (D : FloatType) (context : DeQuantizeLinearContext)
    (hobs : context.only_observer = false) (haxis : 0 ≤ context.quant_axis)
    (hlen : context.Scale.numel = context.X.dims.getD context.quant_axis.toNat 0) :
    DeQuantizeLinearKernel.ComputeImpl D context
      = .ok (ChannelDequantizeFunctorV2 (Cast context.X D) context.Scale
          (perChannelMaxRange D context.bit_length) context.quant_axis.toNat) := by
  have hnot : ¬ context.quant_axis < 0 := not_lt.mpr haxis
  have hdim : (Cast context.X D).dims = context.X.dims := rfl
  unfold DeQuantizeLinearKernel.ComputeImpl perChannelMaxRange
  simp only [hobs, hnot, hdim, if_false, Bool.false_eq_true]
  rw [if_neg (not_not.mpr hlen)]

/-! ## The `max_range` and the values of the dequantize kernel -/

/-- An element of a list mapped together with its index. -/
theorem getElem?_enum_map (l : List ℚ) (f : Nat × ℚ → ℚ) (i : Nat) (hi : i < l.length) :
    (l.enum.map f)[i]? = some (f (i, l[i])) := by
  simp [List.getElem?_map, List.getElem?_enum, List.getElem?_eq_getElem hi]

/-- The value `2^n - 1` survives the conversion to a floating type whose
significand has at least `n` bits. -/
theorem cast_pow2_sub_one (D : FloatType) (n : Nat) (hn : n ≤ D.precision) :
    D.cast (((2 : Int) ^ n - 1 : Int) : ℚ) = (2 : ℚ) ^ n - 1 := by
  have hpos : 1 ≤ 2 ^ n := Nat.one_le_two_pow
  have hlt : 2 ^ n - 1 < 2 ^ D.precision := by
    have hle : 2 ^ n ≤ 2 ^ D.precision := Nat.pow_le_pow_right (by norm_num) hn
    omega
  have hcast : (((2 : Int) ^ n - 1 : Int) : ℚ) = ((2 ^ n - 1 : Nat) : ℚ) := by
    rw [Nat.cast_sub hpos]
    push_cast
    ring
  unfold FloatType.cast
  rw [hcast, roundToPrecision_natCast _ _ hlt, Nat.cast_sub hpos]
  push_cast
  ring

/-- C12 (as stated) fails: at `bit_length = 26`, within `1..32`, the `float`
`max_range` of the per-tensor branch is `2^25 = 33554432`, not `2^25 - 1`, and the
call on the single element 1 with scale 1 returns `1 / 33554432`; the per-channel
`max_range` at `float` precision is `33554432` as well. -/
theorem dequantize_max_range_exact_fails :
    (1 : Int) ≤ wideDequantContext.bit_length ∧ wideDequantContext.bit_length ≤ 32 ∧
      perTensorMaxRange .float 26 = 33554432 ∧
      perChannelMaxRange .float 26 = 33554432 ∧
      perTensorMaxRange .float 26 ≠ (2 : ℚ) ^ 25 - 1 ∧
      DeQuantizeLinearKernel.Compute wideDequantContext
        = .ok ⟨.FLOAT32, [1], [1 / 33554432]⟩ := by
  have hlogA : Int.log 2 |(33554431 : ℚ)| = 24 := by
    rw [show |(33554431 : ℚ)| = ((33554431 : ℕ) : ℚ) by norm_num, Int.log_natCast,
      @Nat.log_eq_of_pow_le_of_lt_pow 2 24 33554431 (by norm_num) (by norm_num)]
    rfl
  have hlogB : Int.log 2 |(33554432 : ℚ)| = 25 := by
    rw [show |(33554432 : ℚ)| = ((33554432 : ℕ) : ℚ) by norm_num, Int.log_natCast,
      @Nat.log_eq_of_pow_le_of_lt_pow 2 25 33554432 (by norm_num) (by norm_num)]
    rfl
  have hA : roundToPrecision 24 33554431 = 33554432 := by
    unfold roundToPrecision
    rw [hlogA]
    norm_num [roundHalfEven]
  have hB : roundToPrecision 24 33554432 = 33554432 := by
    unfold roundToPrecision
    rw [hlogB]
    norm_num [roundHalfEven]
  have hone : roundToPrecision 24 1 = 1 := by
    have h := roundToPrecision_natCast 24 1 (by norm_num)
    norm_num at h
    exact h
  have hval : doubleSubOne ((26 : Int) - 1) = 33554431 := by
    rw [doubleSubOne_eq _ (by norm_num)]
    norm_num [pow2]
  have hint : doubleToInt (doubleSubOne ((26 : Int) - 1)) = 33554431 := by
    have h := doubleToInt_pow2_sub_one 25 (by norm_num)
    rw [doubleSubOne_eq _ (by norm_num)]
    norm_num at h ⊢
    exact h
  have hT : perTensorMaxRange .float 26 = 33554432 := by
    unfold perTensorMaxRange FloatType.cast
    rw [hval]
    show roundToPrecision 24 (roundToPrecision 24 33554431) = 33554432
    rw [hA, hB]
  have hC : perChannelMaxRange .float 26 = 33554432 := by
    unfold perChannelMaxRange FloatType.cast
    rw [hint]
    show roundToPrecision 24 ((33554431 : Int) : ℚ) = 33554432
    norm_num [hA]
  refine ⟨by decide, by decide, hT, hC, ?_, ?_⟩
  · rw [hT]
    norm_num
  · have hdisp : DeQuantizeLinearKernel.Compute wideDequantContext
        = DeQuantizeLinearKernel.ComputeImpl .float wideDequantContext := rfl
    rw [hdisp, computeImpl_per_tensor .float wideDequantContext rfl (by decide)]
    show Except.ok (DequantizeFunctor (Cast wideDequantContext.X .float)
      wideDequantContext.Scale (perTensorMaxRange .float 26)) = _
    rw [hT]
    simp only [DequantizeFunctor, Cast, wideDequantContext, DenseTensor.first, List.headD,
      List.map, FloatType.cast, FloatType.precision, FloatType.toDataType, hone]
    norm_num

/-- C12 (amended): for a non-observer dequantize call at precision `D` with
`1 ≤ bit_length ≤ 32` and `bit_length - 1` not above the significand width of
`D`, the per-channel `max_range` is `2^(bit_length-1) - 1`, and so is the
per-tensor one when moreover `bit_length ≤ 25` (it passes through a `float`); with
`quant_axis < 0` every output element is `cast_D(X[i]) * scale / max_range`, and
with `quant_axis ≥ 0` and a scale of the size of the axis it is
`cast_D(X[i]) * scale[c(i)] / max_range`. -/
theorem dequantize_max_range_and_values (D : FloatType) (context : DeQuantizeLinearContext)
    (hobs : context.only_observer = false)
    (h1 : 1 ≤ context.bit_length) (h32 : context.bit_length ≤ 32)
    (hrep : context.bit_length - 1 ≤ D.precision) :
    perChannelMaxRange D context.bit_length
        = (2 : ℚ) ^ (context.bit_length - 1).toNat - 1 ∧
      (context.bit_length ≤ 25 →
        perTensorMaxRange D context.bit_length
          = (2 : ℚ) ^ (context.bit_length - 1).toNat - 1) ∧
      (context.quant_axis < 0 →
        ∃ Y : DenseTensor, DeQuantizeLinearKernel.ComputeImpl D context = .ok Y ∧
          Y.dtype = D.toDataType ∧
          ∀ i, ∀ hi : i < context.X.data.length,
            Y.data[i]? = some (D.cast context.X.data[i] * context.Scale.first
              / perTensorMaxRange D context.bit_length)) ∧
      (0 ≤ context.quant_axis →
        context.Scale.numel = context.X.dims.getD context.quant_axis.toNat 0 →
        ∃ Y : DenseTensor, DeQuantizeLinearKernel.ComputeImpl D context = .ok Y ∧
          Y.dtype = D.toDataType ∧
          ∀ i, ∀ hi : i < context.X.data.length,
            Y.data[i]? = some (D.cast context.X.data[i]
              * context.Scale.data.getD
                  (channelOf context.X.dims context.quant_axis.toNat i) 0
              / perChannelMaxRange D context.bit_length)) := by
  obtain ⟨n, hb⟩ : ∃ n : Nat, context.bit_length - 1 = (n : Int) :=
    ⟨(context.bit_length - 1).toNat, by omega⟩
  have hn31 : n ≤ 31 := by omega
  have hnD : n ≤ D.precision := by omega
  have htoNat : (context.bit_length - 1).toNat = n := by omega
  have hsub : doubleSubOne (context.bit_length - 1) = pow2 (n : Int) - 1 := by
    rw [hb, doubleSubOne_eq _ (by omega)]
  have hpow : doubleSubOne (context.bit_length - 1) = (((2 : Int) ^ n - 1 : Int) : ℚ) := by
    rw [hsub]
    simp [pow2]
  refine ⟨?_, ?_, ?_, ?_⟩
  · unfold perChannelMaxRange
    rw [htoNat, hsub, doubleToInt_pow2_sub_one n hn31]
    exact cast_pow2_sub_one D n hnD
  · intro h25
    have hn24 : n ≤ FloatType.float.precision := by
      show n ≤ 24
      omega
    unfold perTensorMaxRange
    rw [htoNat, hpow, cast_pow2_sub_one FloatType.float n hn24]
    have hback : (2 : ℚ) ^ n - 1 = (((2 : Int) ^ n - 1 : Int) : ℚ) := by simp
    rw [hback, cast_pow2_sub_one D n hnD]
    exact hback
  · intro haxis
    refine ⟨_, computeImpl_per_tensor D context hobs haxis, rfl, ?_⟩
    intro i hi
    simp [DequantizeFunctor, Cast, List.getElem?_map, List.getElem?_eq_getElem hi]
  · intro haxis hlen
    refine ⟨_, computeImpl_per_channel D context hobs haxis hlen, rfl, ?_⟩
    intro i hi
    have hi2 : i < (Cast context.X D).data.length := by simpa [Cast] using hi
    show ((Cast context.X D).data.enum.map _)[i]? = _
    rw [getElem?_enum_map _ _ i hi2]
    simp [Cast]

/-- C12 (amended) at a concrete per-channel call at 8 bits: `max_range` is 127. -/
theorem dequantize_max_range_and_values_witness :
    channelDequantContext.only_observer = false ∧
      1 ≤ channelDequantContext.bit_length ∧ channelDequantContext.bit_length ≤ 32 ∧
      channelDequantContext.bit_length - 1 ≤ FloatType.float.precision ∧
      perChannelMaxRange .float channelDequantContext.bit_length
        = (2 : ℚ) ^ (channelDequantContext.bit_length - 1).toNat - 1 :=
  ⟨rfl, by decide, by decide, by decide,
    (dequantize_max_range_and_values .float channelDequantContext rfl (by decide)
      (by decide) (by decide)).1⟩

/-! ## Scale used by the quantize transform -/

/-- C13: in training per-tensor mode with `only_observer = false`, `Y` is the
per-tensor Quantize Transform of `X` with the kernel's `bin_cnt` and `round_type`
and with the freshly written moving-average scale
`(InAccum * moving_rate + absmax(X)) / (InState * moving_rate + 1)`; the input
`Scale` plays no part. -/
theorem quantize_training_per_tensor_uses_moving_average (eps : ℚ)
    (context : QuantizeLinearContext) (htrain : context.is_test = false)
    (haxis : context.quant_axis < 0) (hobs : context.only_observer = false) :
    let scale := (context.InAccum.first * context.moving_rate
        + FindAbsMaxFunctor context.X.data context.X.numel)
      / (context.InState.first * context.moving_rate + 1)
    (QuantizeLinearKernel.Compute eps context).OutScale
        = some (scalarTensor context.X.dtype scale) ∧
      (QuantizeLinearKernel.Compute eps context).Y
        = ClipAndFakeQuantFunctor eps context.X (scalarTensor context.X.dtype scale)
            (bin_cnt context.bit_length) context.round_type ∧
      (QuantizeLinearKernel.Compute eps context).Y.data
        = context.X.data.map
            (quantizeElem eps scale (bin_cnt context.bit_length) context.round_type) ∧
      ∀ scaleIn : DenseTensor,
        QuantizeLinearKernel.Compute eps { context with Scale := scaleIn }
          = QuantizeLinearKernel.Compute eps context := by
  unfold QuantizeLinearKernel.Compute
  simp only [htrain, haxis, hobs, if_true, Bool.not_false, Bool.false_eq_true, if_false,
    FindMovingAverageAbsMaxFunctor]
  refine ⟨?_, ?_, ?_, ?_⟩ <;> first | trivial | (intro scaleIn; trivial)

/-- C13 at a concrete call: stored pair `(4, 2)`, rate `9/10` and abs-max 5 give
the scale `43/14`, neither the abs-max 5 nor the input scale 7. -/
theorem quantize_training_per_tensor_uses_moving_average_witness :
    smoothedTrainingContext.is_test = false ∧ smoothedTrainingContext.quant_axis < 0 ∧
      smoothedTrainingContext.only_observer = false ∧
      (QuantizeLinearKernel.Compute (1 / 1000000) smoothedTrainingContext).OutScale
        = some (scalarTensor .FLOAT32 (43 / 14)) := by
  have h := (quantize_training_per_tensor_uses_moving_average (1 / 1000000)
    smoothedTrainingContext rfl (by decide) rfl).1
  have hv : (smoothedTrainingContext.InAccum.first * smoothedTrainingContext.moving_rate
        + FindAbsMaxFunctor smoothedTrainingContext.X.data smoothedTrainingContext.X.numel)
      / (smoothedTrainingContext.InState.first * smoothedTrainingContext.moving_rate + 1)
      = 43 / 14 := by
    norm_num [smoothedTrainingContext, DenseTensor.first, FindAbsMaxFunctor, absMax,
      DenseTensor.numel]
  rw [hv] at h
  exact ⟨rfl, by decide, rfl, h⟩

/-- C14: in inference mode with `only_observer = false`, `Y` is the Quantize
Transform of `X` with the supplied `Scale` as it is, per-tensor for
`quant_axis < 0` and per-channel along `quant_axis` otherwise; no statistic is
written, and nothing depends on `InAccum`, `InState` or `moving_rate`. -/
theorem quantize_inference_uses_input_scale (eps : ℚ) (context : QuantizeLinearContext)
    (htest : context.is_test = true) (hobs : context.only_observer = false) :
    (context.quant_axis < 0 →
        (QuantizeLinearKernel.Compute eps context).Y
            = ClipAndFakeQuantFunctor eps context.X context.Scale
                (bin_cnt context.bit_length) context.round_type ∧
          (QuantizeLinearKernel.Compute eps context).Y.data
            = context.X.data.map (quantizeElem eps context.Scale.first
                (bin_cnt context.bit_length) context.round_type)) ∧
      (0 ≤ context.quant_axis →
        (QuantizeLinearKernel.Compute eps context).Y
            = ChannelClipAndFakeQuantFunctor eps context.X context.Scale
                (bin_cnt context.bit_length) context.round_type context.quant_axis.toNat ∧
          ∀ i, ∀ hi : i < context.X.data.length,
            (QuantizeLinearKernel.Compute eps context).Y.data[i]?
              = some (quantizeElem eps
                  (context.Scale.data.getD
                    (channelOf context.X.dims context.quant_axis.toNat i) 0)
                  (bin_cnt context.bit_length) context.round_type context.X.data[i])) ∧
      (QuantizeLinearKernel.Compute eps context).OutScale = none ∧
      (∀ (accum state : DenseTensor) (rate : ℚ),
        QuantizeLinearKernel.Compute eps
            { context with InAccum := accum, InState := state, moving_rate := rate }
          = QuantizeLinearKernel.Compute eps context) := by
  refine ⟨?_, ?_, ?_, ?_⟩
  · intro haxis
    unfold QuantizeLinearKernel.Compute
    simp only [htest, haxis, hobs, if_true, Bool.not_true, Bool.false_eq_true, if_false]
    constructor <;> trivial
  · intro haxis
    have hnot : ¬ context.quant_axis < 0 := not_lt.mpr haxis
    have hY : (QuantizeLinearKernel.Compute eps context).Y
        = ChannelClipAndFakeQuantFunctor eps context.X context.Scale
            (bin_cnt context.bit_length) context.round_type context.quant_axis.toNat := by
      unfold QuantizeLinearKernel.Compute
      simp only [htest, hnot, hobs, Bool.not_true, Bool.false_eq_true, if_false]
    refine ⟨hY, ?_⟩
    intro i hi
    rw [hY]
    show (context.X.data.enum.map _)[i]? = _
    rw [getElem?_enum_map _ _ i hi]
  · unfold QuantizeLinearKernel.Compute
    simp only [htest, hobs, Bool.not_true, Bool.false_eq_true, if_false]
    split_ifs <;> rfl
  · intro accum state rate
    unfold QuantizeLinearKernel.Compute
    simp only [htest, hobs, Bool.not_true, Bool.false_eq_true, if_false]

/-- C14 at a concrete inference per-channel call. -/
theorem quantize_inference_uses_input_scale_witness :
    channelInferenceContext.is_test = true ∧ channelInferenceContext.only_observer = false ∧
      (QuantizeLinearKernel.Compute (1 / 1000000) channelInferenceContext).Y
        = ChannelClipAndFakeQuantFunctor (1 / 1000000) channelInferenceContext.X
            channelInferenceContext.Scale (bin_cnt channelInferenceContext.bit_length)
            channelInferenceContext.round_type channelInferenceContext.quant_axis.toNat :=
  ⟨rfl, rfl,
    ((quantize_inference_uses_input_scale (1 / 1000000) channelInferenceContext rfl rfl).2.1
      (by decide)).1⟩

/-! ## Selection of the per-tensor path -/

/-- C17: both kernels look only at the sign of `quant_axis`. With any negative
`quant_axis` the quantize kernel, `ComputeImpl<D>` and the dequantize dispatcher
return exactly what they return for `quant_axis = -1`, and the non-observer
dequantize call is then the per-tensor transform and never fails; with
`quant_axis ≥ 0` the non-observer dequantize call is the scale-length check
followed by the per-channel transform. The non-observer inference quantize call is
the per-tensor transform for `quant_axis < 0` and the per-channel one for
`quant_axis ≥ 0`, a training quantize call leaves `OutAccum` unwritten exactly
when `quant_axis ≥ 0`, and `ComputeImpl<D>` fails (the scale-length check) only
with `quant_axis ≥ 0`. -/
theorem per_tensor_path_from_sign_of_quant_axis (eps : ℚ) (context : QuantizeLinearContext)
    (D : FloatType) (dcontext : DeQuantizeLinearContext) :
    (context.quant_axis < 0 →
        QuantizeLinearKernel.Compute eps context
          = QuantizeLinearKernel.Compute eps { context with quant_axis := -1 }) ∧
      (dcontext.quant_axis < 0 →
        DeQuantizeLinearKernel.ComputeImpl D dcontext
            = DeQuantizeLinearKernel.ComputeImpl D { dcontext with quant_axis := -1 } ∧
          DeQuantizeLinearKernel.Compute dcontext
            = DeQuantizeLinearKernel.Compute { dcontext with quant_axis := -1 }) ∧
      (dcontext.only_observer = false → dcontext.quant_axis < 0 →
        DeQuantizeLinearKernel.ComputeImpl D dcontext
          = .ok (DequantizeFunctor (Cast dcontext.X D) dcontext.Scale
              (perTensorMaxRange D dcontext.bit_length))) ∧
      (dcontext.only_observer = false → 0 ≤ dcontext.quant_axis →
        DeQuantizeLinearKernel.ComputeImpl D dcontext
          = if dcontext.Scale.numel ≠ dcontext.X.dims.getD dcontext.quant_axis.toNat 0 then
              .error (.PreconditionNotMet dcontext.Scale.numel
                (dcontext.X.dims.getD dcontext.quant_axis.toNat 0))
            else
              .ok (ChannelDequantizeFunctorV2 (Cast dcontext.X D) dcontext.Scale
                (perChannelMaxRange D dcontext.bit_length) dcontext.quant_axis.toNat)) ∧
      (context.only_observer = false → context.is_test = true →
        context.quant_axis < 0 →
        (QuantizeLinearKernel.Compute eps context).Y
          = ClipAndFakeQuantFunctor eps context.X context.Scale
              (bin_cnt context.bit_length) context.round_type) ∧
      (context.only_observer = false → context.is_test = true →
        0 ≤ context.quant_axis →
        (QuantizeLinearKernel.Compute eps context).Y
          = ChannelClipAndFakeQuantFunctor eps context.X context.Scale
              (bin_cnt context.bit_length) context.round_type context.quant_axis.toNat) ∧
      (context.is_test = false →
        ((QuantizeLinearKernel.Compute eps context).OutAccum = none ↔
          0 ≤ context.quant_axis)) ∧
      (∀ e : Error, DeQuantizeLinearKernel.ComputeImpl D dcontext = .error e →
        0 ≤ dcontext.quant_axis) := by
  have hneg : ((-1 : Int) < 0) = True := by decide
  refine ⟨?_, ?_, ?_, ?_, ?_, ?_, ?_, ?_⟩
  · intro haxis
    unfold QuantizeLinearKernel.Compute
    simp only [haxis, hneg, if_true]
  · intro haxis
    have himpl : ∀ E : FloatType, DeQuantizeLinearKernel.ComputeImpl E dcontext
        = DeQuantizeLinearKernel.ComputeImpl E { dcontext with quant_axis := -1 } := by
      intro E
      unfold DeQuantizeLinearKernel.ComputeImpl
      simp only [haxis, hneg, if_true]
    refine ⟨himpl D, ?_⟩
    unfold DeQuantizeLinearKernel.Compute
    simp only [himpl]
  · intro hobs haxis
    exact computeImpl_per_tensor D dcontext hobs haxis
  · intro hobs haxis
    by_cases hlen : dcontext.Scale.numel = dcontext.X.dims.getD dcontext.quant_axis.toNat 0
    · rw [if_neg (not_not.mpr hlen)]
      exact computeImpl_per_channel D dcontext hobs haxis hlen
    · rw [if_pos hlen]
      have hnot : ¬ dcontext.quant_axis < 0 := not_lt.mpr haxis
      have hdim : (Cast dcontext.X D).dims = dcontext.X.dims := rfl
      unfold DeQuantizeLinearKernel.ComputeImpl
      simp only [hobs, hnot, hdim, if_false, Bool.false_eq_true]
      rw [if_pos hlen]
  · intro hobs htest haxis
    unfold QuantizeLinearKernel.Compute
    simp only [htest, haxis, hobs, if_true, Bool.not_true, Bool.false_eq_true, if_false]
  · intro hobs htest haxis
    have hnot : ¬ context.quant_axis < 0 := not_lt.mpr haxis
    unfold QuantizeLinearKernel.Compute
    simp only [htest, hnot, hobs, Bool.not_true, Bool.false_eq_true, if_false]
  · intro htrain
    unfold QuantizeLinearKernel.Compute
    simp only [htrain, Bool.not_false, if_true]
    by_cases haxis : context.quant_axis < 0
    · have hnot : ¬ 0 ≤ context.quant_axis := not_le.mpr haxis
      simp only [haxis, if_true, hnot, iff_false]
      split_ifs <;> simp
    · have hpos : 0 ≤ context.quant_axis := not_lt.mp haxis
      simp only [haxis, if_false, hpos, iff_true]
      split_ifs <;> rfl
  · intro e he
    by_contra hcon
    have haxis : dcontext.quant_axis < 0 := not_le.mp hcon
    cases hobs : dcontext.only_observer
    · rw [computeImpl_per_tensor D dcontext hobs haxis] at he
      cases he
    · unfold DeQuantizeLinearKernel.ComputeImpl at he
      simp only [hobs, if_true] at he
      cases he

/-- C17 at `quant_axis = -7`: the quantize call and the dequantize call return what
they return for -1, the dequantize call without any scale-length check. -/
theorem per_tensor_path_from_sign_of_quant_axis_witness :
    negativeAxisContext.quant_axis < 0 ∧ negativeAxisDequantContext.quant_axis < 0 ∧
      QuantizeLinearKernel.Compute (1 / 1000000) negativeAxisContext
        = QuantizeLinearKernel.Compute (1 / 1000000)
            { negativeAxisContext with quant_axis := -1 } ∧
      DeQuantizeLinearKernel.ComputeImpl .float negativeAxisDequantContext
        = DeQuantizeLinearKernel.ComputeImpl .float
            { negativeAxisDequantContext with quant_axis := -1 } ∧
      DeQuantizeLinearKernel.ComputeImpl .float negativeAxisDequantContext
        = .ok (DequantizeFunctor (Cast negativeAxisDequantContext.X .float)
            negativeAxisDequantContext.Scale
            (perTensorMaxRange .float negativeAxisDequantContext.bit_length)) :=
  ⟨by decide, by decide,
    (per_tensor_path_from_sign_of_quant_axis (1 / 1000000) negativeAxisContext .float
      negativeAxisDequantContext).1 (by decide),
    ((per_tensor_path_from_sign_of_quant_axis (1 / 1000000) negativeAxisContext .float
      negativeAxisDequantContext).2.1 (by decide)).1,
    (per_tensor_path_from_sign_of_quant_axis (1 / 1000000) negativeAxisContext .float
      negativeAxisDequantContext).2.2.1 rfl (by decide)⟩

/-! ## Successive training per-tensor calls -/

/-- The outputs of one training per-tensor call in terms of the stored pair. -/
theorem trainingCall_outputs (eps : ℚ) (context : QuantizeLinearContext)
    (htrain : context.is_test = false) (haxis : context.quant_axis < 0)
    (init : Statistics) (inputs : List DenseTensor) (X : DenseTensor) :
    (trainingCall eps context init inputs X).OutAccum
        = some (scalarTensor X.dtype
            ((trainingRun eps context init inputs).accum.first * context.moving_rate
              + FindAbsMaxFunctor X.data X.numel)) ∧
      (trainingCall eps context init inputs X).OutState
        = some (scalarTensor X.dtype
            ((trainingRun eps context init inputs).state.first * context.moving_rate + 1)) ∧
      (trainingCall eps context init inputs X).OutScale
        = some (scalarTensor X.dtype
            (((trainingRun eps context init inputs).accum.first * context.moving_rate
              + FindAbsMaxFunctor X.data X.numel)
              / ((trainingRun eps context init inputs).state.first * context.moving_rate
                + 1))) := by
  unfold trainingCall QuantizeLinearKernel.Compute
  simp only [htrain, haxis, if_true, Bool.not_false, FindMovingAverageAbsMaxFunctor]
  refine ⟨?_, ?_, ?_⟩ <;> split_ifs <;> rfl

/-- The pair stored after one more call is the pair that call wrote. -/
theorem trainingRun_append (eps : ℚ) (context : QuantizeLinearContext)
    (htrain : context.is_test = false) (haxis : context.quant_axis < 0)
    (init : Statistics) (inputs : List DenseTensor) (X : DenseTensor) :
    (trainingRun eps context init (inputs ++ [X])).accum.first
        = (trainingRun eps context init inputs).accum.first * context.moving_rate
          + FindAbsMaxFunctor X.data X.numel ∧
      (trainingRun eps context init (inputs ++ [X])).state.first
        = (trainingRun eps context init inputs).state.first * context.moving_rate + 1 := by
  obtain ⟨ha, hs, _⟩ := trainingCall_outputs eps context htrain haxis init inputs X
  have hrun : trainingRun eps context init (inputs ++ [X])
      = trainingStep eps context (trainingRun eps context init inputs) X := by
    unfold trainingRun
    rw [List.foldl_append]
    rfl
  have hacc : (trainingStep eps context (trainingRun eps context init inputs) X).accum
      = (trainingCall eps context init inputs X).OutAccum.getD
          (trainingRun eps context init inputs).accum := rfl
  have hst : (trainingStep eps context (trainingRun eps context init inputs) X).state
      = (trainingCall eps context init inputs X).OutState.getD
          (trainingRun eps context init inputs).state := rfl
  rw [hrun, hacc, hst, ha, hs]
  exact ⟨rfl, rfl⟩

/-- C15: a training per-tensor call that starts from the stored pair `(0, 0)` and
observes the abs-max `cur` writes `(OutAccum, OutState, OutScale) = (cur, 1, cur)`;
the next call, fed with these and observing `cur2`, writes
`OutAccum = cur * moving_rate + cur2`, `OutState = moving_rate + 1` and
`OutScale = (cur * moving_rate + cur2) / (moving_rate + 1)`. -/
theorem moving_average_first_two_calls (eps : ℚ) (context : QuantizeLinearContext)
    (htrain : context.is_test = false) (haxis : context.quant_axis < 0)
    (init : Statistics) (h0a : init.accum.first = 0) (h0s : init.state.first = 0)
    (X1 X2 : DenseTensor) :
    let cur := FindAbsMaxFunctor X1.data X1.numel
    let cur2 := FindAbsMaxFunctor X2.data X2.numel
    let rate := context.moving_rate
    (trainingCall eps context init [] X1).OutAccum = some (scalarTensor X1.dtype cur) ∧
      (trainingCall eps context init [] X1).OutState = some (scalarTensor X1.dtype 1) ∧
      (trainingCall eps context init [] X1).OutScale = some (scalarTensor X1.dtype cur) ∧
      (trainingCall eps context init [X1] X2).OutAccum
        = some (scalarTensor X2.dtype (cur * rate + cur2)) ∧
      (trainingCall eps context init [X1] X2).OutState
        = some (scalarTensor X2.dtype (rate + 1)) ∧
      (trainingCall eps context init [X1] X2).OutScale
        = some (scalarTensor X2.dtype ((cur * rate + cur2) / (rate + 1))) := by
  intro cur cur2 rate
  obtain ⟨ha1, hs1, hsc1⟩ := trainingCall_outputs eps context htrain haxis init [] X1
  obtain ⟨ha2, hs2, hsc2⟩ := trainingCall_outputs eps context htrain haxis init [X1] X2
  obtain ⟨hacc, hst⟩ := trainingRun_append eps context htrain haxis init [] X1
  have hnil : trainingRun eps context init [] = init := rfl
  simp only [hnil, h0a, h0s, List.nil_append, zero_mul, zero_add] at hacc hst
  simp only [hnil, h0a, h0s, zero_mul, zero_add, div_one] at ha1 hs1 hsc1
  simp only [hacc, hst, one_mul] at ha2 hs2 hsc2
  exact ⟨ha1, hs1, hsc1, ha2, hs2, hsc2⟩

/-- C15 at the numbers of the specification: abs-max 5, rate `9/10`, then
abs-max 3 give `(5, 1, 5)` and then `(15/2, 19/10, 75/19)`. -/
theorem moving_average_first_two_calls_witness :
    trainingContext.is_test = false ∧ trainingContext.quant_axis < 0 ∧
      zeroStatistics.accum.first = 0 ∧ zeroStatistics.state.first = 0 ∧
      (trainingCall (1 / 1000000) trainingContext zeroStatistics [] firstBatch).OutAccum
        = some (scalarTensor .FLOAT32 5) ∧
      (trainingCall (1 / 1000000) trainingContext zeroStatistics [] firstBatch).OutState
        = some (scalarTensor .FLOAT32 1) ∧
      (trainingCall (1 / 1000000) trainingContext zeroStatistics [] firstBatch).OutScale
        = some (scalarTensor .FLOAT32 5) ∧
      (trainingCall (1 / 1000000) trainingContext zeroStatistics [firstBatch]
          secondBatch).OutAccum = some (scalarTensor .FLOAT32 (15 / 2)) ∧
      (trainingCall (1 / 1000000) trainingContext zeroStatistics [firstBatch]
          secondBatch).OutState = some (scalarTensor .FLOAT32 (19 / 10)) ∧
      (trainingCall (1 / 1000000) trainingContext zeroStatistics [firstBatch]
          secondBatch).OutScale = some (scalarTensor .FLOAT32 (75 / 19)) := by
  have h := moving_average_first_two_calls (1 / 1000000) trainingContext rfl (by decide)
    zeroStatistics rfl rfl firstBatch secondBatch
  have hc1 : FindAbsMaxFunctor firstBatch.data firstBatch.numel = 5 := by
    norm_num [firstBatch, FindAbsMaxFunctor, absMax, DenseTensor.numel]
  have hc2 : FindAbsMaxFunctor secondBatch.data secondBatch.numel = 3 := by
    norm_num [secondBatch, FindAbsMaxFunctor, absMax, DenseTensor.numel]
  have hr : trainingContext.moving_rate = 9 / 10 := rfl
  have hd1 : firstBatch.dtype = .FLOAT32 := rfl
  have hd2 : secondBatch.dtype = .FLOAT32 := rfl
  simp only [hc1, hc2, hr, hd1, hd2] at h
  norm_num at h
  exact ⟨rfl, by decide, rfl, rfl, h.1, h.2.1, h.2.2.1, h.2.2.2.1, h.2.2.2.2.1,
    h.2.2.2.2.2⟩

/-! ## No zero divisor in the transforms -/

end operators
end paddle
